import Mathlib

/-!
Shallow embedding of `src/main.py` (a YAML protocol/settings validator and
table projector). Parsed YAML documents are modelled by the `Yaml` tree;
Python exceptions by `PyExc`; every dynamic operation the source performs on a
parsed document (subscripting, `in`, `len`, `.get`, `.items()`, iteration,
`str.join`, `set(...)`) is modelled as a function into `Except PyExc _`, so
that an uncaught Python exception is an `Except.error` value. The file read
plus `yaml.safe_load` step of each function is modelled by an input of type
`Except PyExc Yaml`: `Except.error` stands for an unopenable file or a file
that is not well-formed YAML.
-/

/-- A parsed YAML document node: string scalar, sequence, mapping (string
keys, insertion order kept) or null. -/
inductive Yaml where
  | str : String → Yaml
  | list : List Yaml → Yaml
  | map : List (String × Yaml) → Yaml
  | null : Yaml

mutual

/-- Python `==` on document nodes (structural). -/
def pyEq : Yaml → Yaml → Bool
  | .str a, .str b => a == b
  | .null, .null => true
  | .list a, .list b => pyEqList a b
  | .map a, .map b => pyEqMap a b
  | _, _ => false

/-- Python `==` on sequences of nodes. -/
def pyEqList : List Yaml → List Yaml → Bool
  | [], [] => true
  | a :: as, b :: bs => pyEq a b && pyEqList as bs
  | _, _ => false

/-- Python `==` on mappings (order-sensitive model). -/
def pyEqMap : List (String × Yaml) → List (String × Yaml) → Bool
  | [], [] => true
  | (k, v) :: as, (k2, v2) :: bs => k == k2 && pyEq v v2 && pyEqMap as bs
  | _, _ => false

end

mutual

/-- Python `str()` of a node, as used by f-string interpolation. -/
def pyStr : Yaml → String
  | .str s => s
  | .null => "None"
  | .list l => "[" ++ String.intercalate ", " (pyReprList l) ++ "]"
  | .map m => "\x7b" ++ String.intercalate ", " (pyReprMap m) ++ "\x7d"

/-- Python `repr()` of a node (strings get quoted). -/
def pyRepr : Yaml → String
  | .str s => "'" ++ s ++ "'"
  | .null => "None"
  | .list l => "[" ++ String.intercalate ", " (pyReprList l) ++ "]"
  | .map m => "\x7b" ++ String.intercalate ", " (pyReprMap m) ++ "\x7d"

/-- Rendered elements of a sequence. -/
def pyReprList : List Yaml → List String
  | [] => []
  | x :: xs => pyRepr x :: pyReprList xs

/-- Rendered entries of a mapping. -/
def pyReprMap : List (String × Yaml) → List String
  | [] => []
  | (k, v) :: xs => ("'" ++ k ++ "': " ++ pyRepr v) :: pyReprMap xs

end

/-- A Python exception, as raised by the operations the source performs. -/
inductive PyExc where
  | keyError : String → PyExc
  | typeError : String → PyExc
  | valueError : String → PyExc
  | attributeError : String → PyExc
  | ioError : String → PyExc
  | yamlError : String → PyExc
deriving DecidableEq

/-- Python `str(e)` of an exception; `str(KeyError(k))` is the quoted key. -/
def pyExcStr : PyExc → String
  | .keyError k => "'" ++ k ++ "'"
  | .typeError m => m
  | .valueError m => m
  | .attributeError m => m
  | .ioError m => m
  | .yamlError m => m

/-- Which nodes Python can put in a `set` (scalars yes, containers no). -/
def hashable : Yaml → Bool
  | .str _ => true
  | .null => true
  | .list _ => false
  | .map _ => false

/-- Python type name of a node, for exception messages. -/
def pyTypeName : Yaml → String
  | .str _ => "str"
  | .list _ => "list"
  | .map _ => "dict"
  | .null => "NoneType"

/-- Whether `needle` occurs as a contiguous substring of `hay`. -/
def strContainsSub (hay needle : String) : Bool :=
  (List.range (hay.length + 1)).any fun i => needle.toList.isPrefixOf (hay.toList.drop i)

/-- Python `k in c`: key test on mappings, membership on sequences,
substring test on strings, `TypeError` on `None`. -/
def pyContains (c : Yaml) (k : String) : Except PyExc Bool :=
  match c with
  | .map m => .ok (m.any fun kv => kv.1 == k)
  | .list l => .ok (l.any fun y => pyEq y (Yaml.str k))
  | .str s => .ok (strContainsSub s k)
  | .null => .error (.typeError "argument of type 'NoneType' is not iterable")

/-- Python `len(c)`. -/
def pyLen : Yaml → Except PyExc Nat
  | .str s => .ok s.length
  | .list l => .ok l.length
  | .map m => .ok m.length
  | .null => .error (.typeError "object of type 'NoneType' has no len()")

/-- Python `c[k]` with a string key: mapping lookup (`KeyError` when the key
is absent), `TypeError` on any other node. -/
def pyGetItem (c : Yaml) (k : String) : Except PyExc Yaml :=
  match c with
  | .map m =>
    match m.lookup k with
    | some v => .ok v
    | none => .error (.keyError k)
  | .list _ => .error (.typeError "list indices must be integers or slices, not str")
  | .str _ => .error (.typeError "string indices must be integers")
  | .null => .error (.typeError "'NoneType' object is not subscriptable")

/-- Python `c.get(k, dflt)`: only mappings have the attribute. -/
def pyGetD (c : Yaml) (k : String) (dflt : Yaml) : Except PyExc Yaml :=
  match c with
  | .map m => .ok ((m.lookup k).getD dflt)
  | .str _ => .error (.attributeError "'str' object has no attribute 'get'")
  | .list _ => .error (.attributeError "'list' object has no attribute 'get'")
  | .null => .error (.attributeError "'NoneType' object has no attribute 'get'")

/-- Python `c.items()`: only mappings have the attribute. -/
def pyItems : Yaml → Except PyExc (List (String × Yaml))
  | .map m => .ok m
  | .str _ => .error (.attributeError "'str' object has no attribute 'items'")
  | .list _ => .error (.attributeError "'list' object has no attribute 'items'")
  | .null => .error (.attributeError "'NoneType' object has no attribute 'items'")

/-- Python iteration: elements of a sequence, characters of a string, keys of
a mapping; `TypeError` on `None`. -/
def pyIter : Yaml → Except PyExc (List Yaml)
  | .list l => .ok l
  | .str s => .ok (s.toList.map fun ch => Yaml.str (String.mk [ch]))
  | .map m => .ok (m.map fun kv => Yaml.str kv.1)
  | .null => .error (.typeError "'NoneType' object is not iterable")

/-- Python truthiness of a node. -/
def pyTruthy : Yaml → Bool
  | .str s => !s.isEmpty
  | .list l => !l.isEmpty
  | .map m => !m.isEmpty
  | .null => false

/-- Number of distinct elements `set(...)` would hold, processing elements in
order and raising `TypeError` at the first unhashable one; `seen` is the
accumulator of distinct elements met so far. -/
def pySetCount (seen : List Yaml) : List Yaml → Except PyExc Nat
  | [] => .ok seen.length
  | x :: xs =>
    if hashable x then
      if seen.any (pyEq x) then pySetCount seen xs
      else pySetCount (x :: seen) xs
    else .error (.typeError ("unhashable type: '" ++ pyTypeName x ++ "'"))

/-- Python `x in set(s)`: `TypeError` when `x` is unhashable. -/
def pyMemSet (x : Yaml) (s : List Yaml) : Except PyExc Bool :=
  if hashable x then .ok (s.any (pyEq x))
  else .error (.typeError ("unhashable type: '" ++ pyTypeName x ++ "'"))

/-- Elements of a sequence as Lean strings; `TypeError` at the first element
that is not a Python string (as `str.join` raises). -/
def pyStrList : List Yaml → Except PyExc (List String)
  | [] => .ok []
  | Yaml.str s :: rest => do
    let r ← pyStrList rest
    .ok (s :: r)
  | x :: _ => .error (.typeError ("sequence item: expected str instance, " ++ pyTypeName x ++ " found"))

/-- Python `sep.join(items)` over already-listed items. -/
def pyJoinStrs (sep : String) (items : List Yaml) : Except PyExc String := do
  let l ← pyStrList items
  .ok (String.intercalate sep l)

/-- Python `sep.join(y)` over any iterable node. -/
def pyJoinIter (sep : String) (y : Yaml) : Except PyExc String := do
  let items ← pyIter y
  pyJoinStrs sep items

/-- Required top-level keys of a protocol document (src/main.py line 66). -/
def requiredKeys : List String := ["protocol_name", "states", "transitions"]

/-- Required fields of a transition (src/main.py line 108). -/
def transitionKeys : List String := ["from", "to", "event"]

/-- First key of `ks` missing from `content`, scanning in order
(src/main.py lines 67-70). -/
def findMissingKey (content : Yaml) : List String → Except PyExc (Option String)
  | [] => .ok none
  | k :: ks => do
    let b ← pyContains content k
    if b then findMissingKey content ks else .ok (some k)

/-- Lazy `any(t["from"] == state for t in transitions)` (src/main.py line 98):
stops at the first match, so a later malformed transition is never touched. -/
def anyFromEq (state : Yaml) : List Yaml → Except PyExc Bool
  | [] => .ok false
  | t :: ts => do
    let f ← pyGetItem t "from"
    if pyEq f state then .ok true else anyFromEq state ts

/-- The comprehension of src/main.py lines 95-99: states with no outgoing
transition, in declaration order. -/
def noTransStates (transitions : List Yaml) : List Yaml → Except PyExc (List Yaml)
  | [] => .ok []
  | s :: ss => do
    let b ← anyFromEq s transitions
    let rest ← noTransStates transitions ss
    .ok (if b then rest else s :: rest)

/-- Lazy `all(k in t for k in keys)` (src/main.py line 108). -/
def allKeysIn (t : Yaml) : List String → Except PyExc Bool
  | [] => .ok true
  | k :: ks => do
    let b ← pyContains t k
    if b then allKeysIn t ks else .ok false

/-- Per-transition loop of src/main.py lines 107-122 (check 6): field
presence, membership of `from` and `to` in the state set, non-empty string
event. Returns the verdict and the diagnostic printed, if any. -/
def check_transitions (stateList : List Yaml) : List Yaml → Except PyExc (Bool × Option String)
  | [] => .ok (true, none)
  | t :: ts => do
    let b ← allKeysIn t transitionKeys
    if !b then
      .ok (false, some "Error: Each transition must contain 'from', 'to', and 'event'")
    else do
      let f ← pyGetItem t "from"
      let fIn ← pyMemSet f stateList
      if !fIn then
        .ok (false, some ("Error: Invalid state in transition: " ++ pyStr t))
      else do
        let tto ← pyGetItem t "to"
        let tIn ← pyMemSet tto stateList
        if !tIn then
          .ok (false, some ("Error: Invalid state in transition: " ++ pyStr t))
        else do
          let ev ← pyGetItem t "event"
          match ev with
          | .str s =>
            if s.isEmpty then
              .ok (false, some ("Error: Event must be a non-empty string in transition: " ++ pyStr t))
            else check_transitions stateList ts
          | _ => .ok (false, some ("Error: Event must be a non-empty string in transition: " ++ pyStr t))

/-- Body of `validate_protocol_file` after the read (src/main.py lines 65-125):
the six checks in order, stopping at the first failure; result is the verdict
and the one diagnostic printed, if any. Diagnostics are modelled as the printed
line with rich markup stripped. -/
def protocol_checks (content : Yaml) : Except PyExc (Bool × Option String) := do
  match ← findMissingKey content requiredKeys with
  | some k => .ok (false, some ("Error: Missing key: " ++ k))
  | none => do
    let states ← pyGetItem content "states"
    match states with
    | .list ss =>
      if ss.isEmpty then .ok (false, some "Error: States should be a non-empty list")
      else do
        let transitions ← pyGetItem content "transitions"
        match transitions with
        | .list ts =>
          if ts.isEmpty then .ok (false, some "Error: Transitions should be a non-empty list")
          else do
            let distinct ← pySetCount [] ss
            if ss.length ≠ distinct then .ok (false, some "Error: Duplicate states found")
            else do
              let _stateSet ← pySetCount [] ss
              let offending ← noTransStates ts ss
              if !offending.isEmpty then do
                let joined ← pyJoinStrs ", " offending
                .ok (false, some ("Error: States with no transitions: " ++ joined))
              else check_transitions ss ts
        | _ => .ok (false, some "Error: Transitions should be a non-empty list")
    | _ => .ok (false, some "Error: States should be a non-empty list")

/-- Embeds `validate_protocol_file` (src/main.py lines 60-129). The argument
is the outcome of open-plus-parse; the `except Exception` handler at lines
127-129 turns any raised exception into the generic diagnostic and a `False`
verdict, so the result type has no exception channel. -/
def validate_protocol_file (r : Except PyExc Yaml) : Bool × Option String :=
  match Except.bind r protocol_checks with
  | .ok v => v
  | .error e => (false, some ("Error reading protocol file: " ++ pyExcStr e))

/-- Per-machine loop of src/main.py lines 166-174: `Initial_state` must be
present and truthy; a violation raises `ValueError` naming the machine. -/
def checkMachines : List (String × Yaml) → Except PyExc Unit
  | [] => .ok ()
  | (name, data) :: rest => do
    let b ← pyContains data "Initial_state"
    if !b then
      .error (.valueError ("Machine '" ++ name ++ "' is missing an 'Initial_state'."))
    else do
      let v ← pyGetItem data "Initial_state"
      if !pyTruthy v then
        .error (.valueError ("Machine '" ++ name ++ "' has no initial state defined."))
      else checkMachines rest

/-- Body of `validate_settings_file` after the read (src/main.py lines
159-174): machine-count check then per-machine checks. -/
def settings_checks (content : Yaml) : Except PyExc Unit := do
  let n ← pyLen content
  if n < 2 then
    .error (.valueError "There must be at least two machines in the settings file.")
  else do
    let items ← pyItems content
    checkMachines items

/-- Return value of `validate_settings_file`: the truthy tuple
`(True, "Settings file is valid.")` or the falsy `False` reached after
printing a caught `ValueError`. -/
inductive SettingsVerdict where
  | valid : String → SettingsVerdict
  | invalid : String → SettingsVerdict
deriving DecidableEq

/-- Python truthiness of the returned value (a tuple is truthy, `False` is
not). -/
def SettingsVerdict.truthy : SettingsVerdict → Bool
  | .valid _ => true
  | .invalid _ => false

/-- Console lines the settings validator printed on the way to this value. -/
def SettingsVerdict.console : SettingsVerdict → List String
  | .valid _ => []
  | .invalid m => ["Error in settings files: " ++ m]

/-- Embeds `validate_settings_file` (src/main.py lines 154-180). The handler
at lines 178-180 catches `ValueError` only; every other exception (unopenable
file, malformed YAML, unexpected document shape) leaves the function as an
`Except.error`. -/
def validate_settings_file (r : Except PyExc Yaml) : Except PyExc SettingsVerdict :=
  match Except.bind r settings_checks with
  | .ok _ => .ok (.valid "Settings file is valid.")
  | .error (PyExc.valueError m) => .ok (.invalid m)
  | .error e => .error e

/-- Inner loop of `protocol_read` (src/main.py lines 37-42): scan the
transitions in order, collecting for those whose `from` equals `state` the
rendered `(from -> to)` string and the event node (default `"N/A"` when the
`event` field is absent). -/
def scan_transitions (state : Yaml) : List Yaml → Except PyExc (List String × List Yaml)
  | [] => .ok ([], [])
  | t :: ts => do
    let f ← pyGetD t "from" Yaml.null
    if pyEq f state then do
      let f2 ← pyGetD t "from" Yaml.null
      let tto ← pyGetD t "to" Yaml.null
      let ev ← pyGetD t "event" (Yaml.str "N/A")
      let rest ← scan_transitions state ts
      .ok (("(" ++ pyStr f2 ++ " -> " ++ pyStr tto ++ ")") :: rest.1, ev :: rest.2)
    else scan_transitions state ts

/-- One table row of `protocol_read` (src/main.py lines 30-54), as the cell
list [State, Event, Transition]. With no matching transition the source
appends "No transitions" first — into the Event column — and "No event"
second — into the Transition column. -/
def protocol_row (transitions : Yaml) (state : Yaml) : Except PyExc (List String) := do
  let ts ← pyIter transitions
  let r ← scan_transitions state ts
  if !r.1.isEmpty then do
    let evCell ← pyJoinStrs " | " r.2
    .ok [pyStr state, evCell, String.intercalate " | " r.1]
  else .ok [pyStr state, "No transitions", "No event"]

/-- Rows of the protocol table, one per state in order. -/
def protocol_rows_go (transitions : Yaml) : List Yaml → Except PyExc (List (List String))
  | [] => .ok []
  | s :: ss => do
    let row ← protocol_row transitions s
    let rest ← protocol_rows_go transitions ss
    .ok (row :: rest)

/-- Embeds `protocol_read` (src/main.py lines 14-57): reads the document and
builds the protocol table's rows. No handler here — a raised exception leaves
the function (the driver catches it). -/
def protocol_read_run (r : Except PyExc Yaml) : Except PyExc (List (List String)) := do
  let c ← r
  let _pname ← pyGetD c "protocol_name" (Yaml.list [])
  let states ← pyGetD c "states" (Yaml.list [])
  let transitions ← pyGetD c "transitions" (Yaml.list [])
  let ss ← pyIter states
  protocol_rows_go transitions ss

/-- Rows of the settings table (src/main.py lines 144-148): one
[machine, joined initial states] row per machine. -/
def settings_rows_go : List (String × Yaml) → Except PyExc (List (List String))
  | [] => .ok []
  | (name, data) :: rest => do
    let v ← pyGetItem data "Initial_state"
    let joined ← pyJoinIter ", " v
    let others ← settings_rows_go rest
    .ok ([name, joined] :: others)

/-- Embeds `settings_read` (src/main.py lines 132-151). -/
def settings_read_run (r : Except PyExc Yaml) : Except PyExc (List (List String)) := do
  let c ← r
  let items ← pyItems c
  settings_rows_go items

/-- One driver-level step the run performed, in order. -/
inductive DriverAction where
  | validateProtocol : DriverAction
  | validateSettings : DriverAction
  | projectProtocol : DriverAction
  | projectSettings : DriverAction
deriving DecidableEq

/-- The file system the run sees: outcome of open-plus-parse for each path. -/
structure Env where
  protocolFile : Except PyExc Yaml
  settingsFile : Except PyExc Yaml

/-- Observable outcome of one `main` invocation after successful argument
parsing: component invocations in order, diagnostic console lines, and the
process exit status. -/
structure RunResult where
  actions : List DriverAction
  console : List String
  exitCode : Nat
deriving DecidableEq

/-- Extension precheck of src/main.py line 224: the path ends with ".yaml"
or ".yml". -/
def hasYamlExt (p : String) : Bool :=
  ".yaml".toList.isSuffixOf p.toList || ".yml".toList.isSuffixOf p.toList

/-- Driver diagnostic for identical paths (src/main.py line 221, printed by
the handler at line 238). -/
def sameFileMsg : String := "Error: Protocol file and settings file cannot be the same."

/-- Driver diagnostic for a path without a YAML extension (src/main.py lines
225-227). -/
def extErrMsg (p : String) : String :=
  "Error: The file '" ++ p ++ "' is not a valid YAML file (must have .yaml or .yml extension)."

/-- Console line of main's exception handlers (src/main.py lines 236-241). -/
def errLine (e : PyExc) : String := "Error: " ++ pyExcStr e

/-- Embeds the body of `main` after argument parsing (src/main.py lines
218-241): precheck, then protocol validation `and` settings validation
(short-circuit), then the two projections; both handlers catch every modelled
exception, and no path sets a non-zero exit status. -/
def main_run (protocolPath settingsPath : String) (env : Env) : RunResult :=
  if protocolPath = settingsPath then
    ⟨[], [sameFileMsg], 0⟩
  else if !hasYamlExt protocolPath then
    ⟨[], [extErrMsg protocolPath], 0⟩
  else if !hasYamlExt settingsPath then
    ⟨[], [extErrMsg settingsPath], 0⟩
  else
    let pv := validate_protocol_file env.protocolFile
    let pcons := pv.2.toList
    if pv.1 then
      match validate_settings_file env.settingsFile with
      | .error e =>
        ⟨[.validateProtocol, .validateSettings], pcons ++ [errLine e], 0⟩
      | .ok v =>
        if v.truthy then
          match protocol_read_run env.protocolFile with
          | .error e =>
            ⟨[.validateProtocol, .validateSettings, .projectProtocol],
              pcons ++ v.console ++ [errLine e], 0⟩
          | .ok _ =>
            match settings_read_run env.settingsFile with
            | .error e =>
              ⟨[.validateProtocol, .validateSettings, .projectProtocol, .projectSettings],
                pcons ++ v.console ++ [errLine e], 0⟩
            | .ok _ =>
              ⟨[.validateProtocol, .validateSettings, .projectProtocol, .projectSettings],
                pcons ++ v.console, 0⟩
        else
          ⟨[.validateProtocol, .validateSettings], pcons ++ v.console, 0⟩
    else ⟨[.validateProtocol], pcons, 0⟩

/-- Protocol document of the Protocol Projector example: states [A, B], one
transition A -> B on event "go". -/
def c1doc : Yaml := Yaml.map
  [("protocol_name", Yaml.str "P"),
   ("states", Yaml.list [Yaml.str "A", Yaml.str "B"]),
   ("transitions", Yaml.list
     [Yaml.map [("from", Yaml.str "A"), ("to", Yaml.str "B"), ("event", Yaml.str "go")]])]

/-- Protocol document whose second transition lacks the from field while the
first transition already gives state A an outgoing edge. -/
def c9doc : Yaml := Yaml.map
  [("protocol_name", Yaml.str "P"),
   ("states", Yaml.list [Yaml.str "A"]),
   ("transitions", Yaml.list
     [Yaml.map [("from", Yaml.str "A"), ("to", Yaml.str "A"), ("event", Yaml.str "e")],
      Yaml.map [("to", Yaml.str "A"), ("event", Yaml.str "e")]])]

/-- Entry check of src/main.py lines 167-174 holding for one machine entry:
`Initial_state` is contained in the entry's data and its value is truthy. -/
def machineOK (entry : String × Yaml) : Prop :=
  pyContains entry.2 "Initial_state" = Except.ok true ∧
  ∃ v, pyGetItem entry.2 "Initial_state" = Except.ok v ∧ pyTruthy v = true

/-- Condition of src/main.py lines 74 and 82: the node is a list with at
least one element. -/
def isNonemptyList : Yaml → Bool
  | .list (_ :: _) => true
  | _ => false

/-- Protocol document passing every validator check (two states, each with
an outgoing transition). -/
def c4proto : Yaml := Yaml.map
  [("protocol_name", Yaml.str "P"),
   ("states", Yaml.list [Yaml.str "A", Yaml.str "B"]),
   ("transitions", Yaml.list
     [Yaml.map [("from", Yaml.str "A"), ("to", Yaml.str "B"), ("event", Yaml.str "go")],
      Yaml.map [("from", Yaml.str "B"), ("to", Yaml.str "A"), ("event", Yaml.str "back")]])]

/-- Settings document passing the settings checks (two machines, each with a
non-empty Initial_state). -/
def c4settings : Yaml := Yaml.map
  [("M1", Yaml.map [("Initial_state", Yaml.list [Yaml.str "A"])]),
   ("M2", Yaml.map [("Initial_state", Yaml.list [Yaml.str "B"])])]

theorem ebind_ok {α β : Type} (a : α) (f : α → Except PyExc β) :
    Except.bind (Except.ok a) f = f a := rfl

theorem ebind_err {α β : Type} (e : PyExc) (f : α → Except PyExc β) :
    Except.bind (Except.error e) f = Except.error e := rfl

theorem pbind_ok {α β : Type} (a : α) (f : α → Except PyExc β) :
    (Except.ok a >>= f) = f a := rfl

theorem pbind_err {α β : Type} (e : PyExc) (f : α → Except PyExc β) :
    ((Except.error e : Except PyExc α) >>= f) = Except.error e := rfl

/-- C1. As the claim reads it: for the document with states [A, B] and the
single transition (A, B, go), row A is [A, go, (A -> B)] and row B has Event
cell "No event" and Transition cell "No transitions". The code produces row B
with "No transitions" in the Event column and "No event" in the Transition
column, so the cells are swapped relative to the claim. -/
theorem c1_counterexample :
    protocol_read_run (Except.ok c1doc) =
      Except.ok [["A", "go", "(A -> B)"], ["B", "No transitions", "No event"]] ∧
    ¬ protocol_read_run (Except.ok c1doc) =
      Except.ok [["A", "go", "(A -> B)"], ["B", "No event", "No transitions"]] := by
  constructor
  · rfl
  · intro h
    rw [show protocol_read_run (Except.ok c1doc) =
        Except.ok [["A", "go", "(A -> B)"], ["B", "No transitions", "No event"]] from rfl] at h
    simp at h

/-- C1 (amended). For the document with states [A, B] and the single
transition (A, B, go), the rendered table has row A with Event cell "go" and
Transition cell "(A -> B)", and row B with Event cell "No transitions" and
Transition cell "No event" (the source fills the empty row's Event column
first with "No transitions", then the Transition column with "No event"). -/
theorem c1_amended_rows :
    protocol_read_run (Except.ok c1doc) =
      Except.ok [["A", "go", "(A -> B)"], ["B", "No transitions", "No event"]] := rfl

/-- C5. Every error raised while reading or parsing the protocol file
(unopenable file, malformed YAML — any modelled exception) is caught by the
handler of src/main.py lines 127-129: the validator returns the failure
verdict with the single generic diagnostic instead of propagating. -/
theorem c5_read_errors_caught (e : PyExc) :
    validate_protocol_file (Except.error e) =
      (false, some ("Error reading protocol file: " ++ pyExcStr e)) := rfl

/-- C2 (counterexample). The Settings Validator does raise past its own
boundary: an unopenable file (IOError) and an unexpectedly shaped document
(null, where len() raises TypeError) both leave `validate_settings_file` as
an uncaught exception instead of a failure verdict. -/
theorem c2_counterexample :
    validate_settings_file (Except.error (PyExc.ioError "No such file or directory")) =
      Except.error (PyExc.ioError "No such file or directory") ∧
    validate_settings_file (Except.ok Yaml.null) =
      Except.error (PyExc.typeError "object of type 'NoneType' has no len()") :=
  ⟨rfl, rfl⟩

/-- C2 (amended). The Settings Validator catches exactly its ValueError kind
(the two structural checks) and converts it into a printed diagnostic and a
falsy verdict; every other exception — unopenable file, malformed YAML,
unexpected document shape — propagates past its boundary to the driver. -/
theorem c2_amended_catches_only_value_error :
    (∀ m, validate_settings_file (Except.error (PyExc.ioError m)) =
      Except.error (PyExc.ioError m)) ∧
    (∀ m, validate_settings_file (Except.error (PyExc.yamlError m)) =
      Except.error (PyExc.yamlError m)) ∧
    (∀ c m, settings_checks c = Except.error (PyExc.valueError m) →
      validate_settings_file (Except.ok c) = Except.ok (SettingsVerdict.invalid m)) ∧
    (∀ c e, settings_checks c = Except.error e → (∀ m, e ≠ PyExc.valueError m) →
      validate_settings_file (Except.ok c) = Except.error e) ∧
    (∀ c, settings_checks c = Except.ok () →
      validate_settings_file (Except.ok c) = Except.ok (SettingsVerdict.valid "Settings file is valid.")) := by
  refine ⟨fun m => rfl, fun m => rfl, ?_, ?_, ?_⟩
  · intro c m h
    unfold validate_settings_file
    rw [ebind_ok, h]
  · intro c e h h2
    unfold validate_settings_file
    rw [ebind_ok, h]
    cases e with
    | valueError m => exact absurd rfl (h2 m)
    | keyError m => rfl
    | typeError m => rfl
    | attributeError m => rfl
    | ioError m => rfl
    | yamlError m => rfl
  · intro c h
    unfold validate_settings_file
    rw [ebind_ok, h]

/-- C2 (witness). The amended theorem applied at a one-machine document (a
caught ValueError) and at a null document (a propagated TypeError). -/
theorem c2_amended_witness :
    validate_settings_file (Except.ok (Yaml.map [("M1", Yaml.map [("Initial_state", Yaml.list [Yaml.str "A"])])])) =
      Except.ok (SettingsVerdict.invalid "There must be at least two machines in the settings file.") ∧
    validate_settings_file (Except.ok Yaml.null) =
      Except.error (PyExc.typeError "object of type 'NoneType' has no len()") :=
  ⟨c2_amended_catches_only_value_error.2.2.1
      (Yaml.map [("M1", Yaml.map [("Initial_state", Yaml.list [Yaml.str "A"])])]) _ rfl,
    c2_amended_catches_only_value_error.2.2.2.1 Yaml.null _ rfl (fun m h => by cases h)⟩

/-- C9 (counterexample). A protocol document can have a transition lacking
the from field and still reach the check-6 missing-field message: in c9doc
the first transition gives state A its outgoing edge, so check 5's lazy
`any` never touches the from-less second transition, check 5 passes, and
check 6 reports the missing field — not the generic file-reading
diagnostic that the claim predicts for every from-less transition. -/
theorem c9_counterexample :
    validate_protocol_file (Except.ok c9doc) =
      (false, some "Error: Each transition must contain 'from', 'to', and 'event'") ∧
    validate_protocol_file (Except.ok c9doc) ≠
      (false, some "Error reading protocol file: 'from'") := by
  refine ⟨rfl, ?_⟩
  intro h
  rw [show validate_protocol_file (Except.ok c9doc) =
      (false, some "Error: Each transition must contain 'from', 'to', and 'event'") from rfl] at h
  simp at h

/-- C9 (amended). A from-less transition raises a KeyError inside check 5
only when check 5's scan actually evaluates it; in particular, when the first
listed transition lacks the from field (and checks 1-4 pass), the KeyError is
caught by the generic read-error handler and the validator returns the
generic file-reading diagnostic quoting the missing key. When every state
finds an earlier matching transition, a from-less transition survives check 5,
so the check-6 missing-field message is also reachable for transitions
lacking the from field (c9doc). -/
theorem c9_amended_keyerror_only_when_scanned :
    (∀ c ss tm ts,
      pyContains c "protocol_name" = Except.ok true →
      pyContains c "states" = Except.ok true →
      pyContains c "transitions" = Except.ok true →
      pyGetItem c "states" = Except.ok (Yaml.list ss) →
      ss ≠ [] →
      pyGetItem c "transitions" = Except.ok (Yaml.list (Yaml.map tm :: ts)) →
      pySetCount [] ss = Except.ok ss.length →
      tm.lookup "from" = none →
      validate_protocol_file (Except.ok c) =
        (false, some "Error reading protocol file: 'from'")) ∧
    validate_protocol_file (Except.ok c9doc) =
      (false, some "Error: Each transition must contain 'from', 'to', and 'event'") := by
  refine ⟨?_, rfl⟩
  intro c ss tm ts h1 h2 h3 h4 h5 h6 h7 h8
  cases ss with
  | nil => exact absurd rfl h5
  | cons s0 rest =>
    have hfm : findMissingKey c requiredKeys = Except.ok none := by
      simp only [requiredKeys, findMissingKey, h1, h2, h3, pbind_ok, if_true]
    have hany : anyFromEq s0 (Yaml.map tm :: ts) = Except.error (PyExc.keyError "from") := by
      simp only [anyFromEq, pyGetItem, h8, pbind_err]
    have hchecks : protocol_checks c = Except.error (PyExc.keyError "from") := by
      simp only [protocol_checks, hfm, h4, h6, h7, hany, pbind_ok, pbind_err,
        noTransStates, List.isEmpty_cons, List.length_cons, ne_eq, Bool.not_false,
        Bool.false_eq_true, if_false, ite_self]
      simp
    unfold validate_protocol_file
    rw [ebind_ok, hchecks]
    rfl

/-- C6. When the protocol path equals the settings path, or either path lacks
a .yaml/.yml extension, the driver reports the corresponding precondition
diagnostic and performs no action at all: no validation, no projection, no
file is touched (the result does not depend on the file system `env`). -/
theorem c6_precheck_short_circuits :
    (∀ p env, main_run p p env = ⟨[], [sameFileMsg], 0⟩) ∧
    (∀ p s env, p ≠ s → hasYamlExt p = false →
      main_run p s env = ⟨[], [extErrMsg p], 0⟩) ∧
    (∀ p s env, p ≠ s → hasYamlExt p = true → hasYamlExt s = false →
      main_run p s env = ⟨[], [extErrMsg s], 0⟩) := by
  refine ⟨?_, ?_, ?_⟩
  · intro p env
    simp [main_run]
  · intro p s env h1 h2
    simp [main_run, h1, h2]
  · intro p s env h1 h2 h3
    simp [main_run, h1, h2, h3]

/-- C6 (witness). The precheck theorem applied at concrete paths: the same
path twice, a .txt protocol path, and a .txt settings path. -/
theorem c6_witness :
    main_run "a.yaml" "a.yaml" ⟨Except.ok Yaml.null, Except.ok Yaml.null⟩ =
      ⟨[], [sameFileMsg], 0⟩ ∧
    main_run "p.txt" "s.yaml" ⟨Except.ok Yaml.null, Except.ok Yaml.null⟩ =
      ⟨[], [extErrMsg "p.txt"], 0⟩ ∧
    main_run "p.yaml" "s.txt" ⟨Except.ok Yaml.null, Except.ok Yaml.null⟩ =
      ⟨[], [extErrMsg "s.txt"], 0⟩ :=
  ⟨c6_precheck_short_circuits.1 "a.yaml" _,
    c6_precheck_short_circuits.2.1 "p.txt" "s.yaml" _ (by decide) (by decide),
    c6_precheck_short_circuits.2.2 "p.yaml" "s.txt" _ (by decide) (by decide) (by decide)⟩

theorem checkMachines_append_ok (pre rest : List (String × Yaml))
    (h : ∀ e ∈ pre, machineOK e) :
    checkMachines (pre ++ rest) = checkMachines rest := by
  induction pre with
  | nil => rfl
  | cons hd tl ih =>
    obtain ⟨name, data⟩ := hd
    obtain ⟨hc, v, hg, ht⟩ := h (name, data) (List.mem_cons_self _ _)
    simp only [List.cons_append, checkMachines, hc, hg, ht, pbind_ok, Bool.not_true,
      Bool.false_eq_true, if_false]
    exact ih (fun e he => h e (List.mem_cons_of_mem _ he))

theorem checkMachines_all_ok (m : List (String × Yaml))
    (h : ∀ e ∈ m, machineOK e) :
    checkMachines m = Except.ok () := by
  have h2 := checkMachines_append_ok m [] h
  rw [List.append_nil] at h2
  exact h2

/-- C7. The Settings Validator fails with exactly the too-few-machines
message on every mapping with fewer than two entries; for the first machine
entry whose Initial_state is missing, or present but empty, it fails with the
message naming that machine; and it succeeds on every mapping of at least two
machines whose entries all carry a truthy Initial_state. -/
theorem c7_settings_validator_checks :
    (∀ m : List (String × Yaml), m.length < 2 →
      validate_settings_file (Except.ok (Yaml.map m)) =
        Except.ok (SettingsVerdict.invalid "There must be at least two machines in the settings file.")) ∧
    (∀ pre post (name : String) (data : Yaml),
      2 ≤ (pre ++ (name, data) :: post).length →
      (∀ e ∈ pre, machineOK e) →
      pyContains data "Initial_state" = Except.ok false →
      validate_settings_file (Except.ok (Yaml.map (pre ++ (name, data) :: post))) =
        Except.ok (SettingsVerdict.invalid ("Machine '" ++ name ++ "' is missing an 'Initial_state'."))) ∧
    (∀ pre post (name : String) (data : Yaml) v,
      2 ≤ (pre ++ (name, data) :: post).length →
      (∀ e ∈ pre, machineOK e) →
      pyContains data "Initial_state" = Except.ok true →
      pyGetItem data "Initial_state" = Except.ok v → pyTruthy v = false →
      validate_settings_file (Except.ok (Yaml.map (pre ++ (name, data) :: post))) =
        Except.ok (SettingsVerdict.invalid ("Machine '" ++ name ++ "' has no initial state defined."))) ∧
    (∀ m : List (String × Yaml), 2 ≤ m.length → (∀ e ∈ m, machineOK e) →
      validate_settings_file (Except.ok (Yaml.map m)) =
        Except.ok (SettingsVerdict.valid "Settings file is valid.")) := by
  refine ⟨?_, ?_, ?_, ?_⟩
  · intro m h
    have hs : settings_checks (Yaml.map m) =
        Except.error (PyExc.valueError "There must be at least two machines in the settings file.") := by
      simp only [settings_checks, pyLen, pyItems, pbind_ok]
      rw [if_pos h]
    unfold validate_settings_file
    rw [ebind_ok, hs]
  · intro pre post name data hlen hpre hc
    have hs : settings_checks (Yaml.map (pre ++ (name, data) :: post)) =
        Except.error (PyExc.valueError ("Machine '" ++ name ++ "' is missing an 'Initial_state'.")) := by
      simp only [settings_checks, pyLen, pyItems, pbind_ok]
      rw [if_neg (Nat.not_lt.mpr hlen), checkMachines_append_ok pre _ hpre]
      simp only [checkMachines, hc, pbind_ok, Bool.not_false, if_true]
    unfold validate_settings_file
    rw [ebind_ok, hs]
  · intro pre post name data v hlen hpre hc hg ht
    have hs : settings_checks (Yaml.map (pre ++ (name, data) :: post)) =
        Except.error (PyExc.valueError ("Machine '" ++ name ++ "' has no initial state defined.")) := by
      simp only [settings_checks, pyLen, pyItems, pbind_ok]
      rw [if_neg (Nat.not_lt.mpr hlen), checkMachines_append_ok pre _ hpre]
      simp only [checkMachines, hc, hg, ht, pbind_ok, Bool.not_true, Bool.not_false,
        Bool.false_eq_true, if_false, if_true]
    unfold validate_settings_file
    rw [ebind_ok, hs]
  · intro m hlen hall
    have hs : settings_checks (Yaml.map m) = Except.ok () := by
      simp only [settings_checks, pyLen, pyItems, pbind_ok]
      rw [if_neg (Nat.not_lt.mpr hlen)]
      exact checkMachines_all_ok m hall
    unfold validate_settings_file
    rw [ebind_ok, hs]

/-- C7 (witness). The theorem applied at concrete settings documents: one
machine (too few); a second machine with no Initial_state key; a second
machine with an empty Initial_state; and two well-formed machines. -/
theorem c7_witness :
    validate_settings_file (Except.ok (Yaml.map [("M1", Yaml.map [("Initial_state", Yaml.list [Yaml.str "A"])])])) =
      Except.ok (SettingsVerdict.invalid "There must be at least two machines in the settings file.") ∧
    validate_settings_file (Except.ok (Yaml.map
        [("M1", Yaml.map [("Initial_state", Yaml.list [Yaml.str "A"])]), ("M2", Yaml.map [])])) =
      Except.ok (SettingsVerdict.invalid "Machine 'M2' is missing an 'Initial_state'.") ∧
    validate_settings_file (Except.ok (Yaml.map
        [("M1", Yaml.map [("Initial_state", Yaml.list [Yaml.str "A"])]),
         ("M2", Yaml.map [("Initial_state", Yaml.list [])])])) =
      Except.ok (SettingsVerdict.invalid "Machine 'M2' has no initial state defined.") ∧
    validate_settings_file (Except.ok (Yaml.map
        [("M1", Yaml.map [("Initial_state", Yaml.list [Yaml.str "A"])]),
         ("M2", Yaml.map [("Initial_state", Yaml.list [Yaml.str "B"])])])) =
      Except.ok (SettingsVerdict.valid "Settings file is valid.") := by
  refine ⟨c7_settings_validator_checks.1 _ (by decide), ?_, ?_, ?_⟩
  · have h := c7_settings_validator_checks.2.1
      [("M1", Yaml.map [("Initial_state", Yaml.list [Yaml.str "A"])])] [] "M2" (Yaml.map [])
      (by decide)
      (by
        intro e he
        simp only [List.mem_singleton] at he
        subst he
        exact ⟨rfl, Yaml.list [Yaml.str "A"], rfl, rfl⟩)
      rfl
    exact h
  · have h := c7_settings_validator_checks.2.2.1
      [("M1", Yaml.map [("Initial_state", Yaml.list [Yaml.str "A"])])] [] "M2"
      (Yaml.map [("Initial_state", Yaml.list [])]) (Yaml.list [])
      (by decide)
      (by
        intro e he
        simp only [List.mem_singleton] at he
        subst he
        exact ⟨rfl, Yaml.list [Yaml.str "A"], rfl, rfl⟩)
      rfl rfl rfl
    exact h
  · have h := c7_settings_validator_checks.2.2.2
      [("M1", Yaml.map [("Initial_state", Yaml.list [Yaml.str "A"])]),
       ("M2", Yaml.map [("Initial_state", Yaml.list [Yaml.str "B"])])]
      (by decide)
      (by
        intro e he
        simp only [List.mem_cons, List.not_mem_nil, or_false] at he
        rcases he with h1 | h2
        · subst h1
          exact ⟨rfl, Yaml.list [Yaml.str "A"], rfl, rfl⟩
        · subst h2
          exact ⟨rfl, Yaml.list [Yaml.str "B"], rfl, rfl⟩)
    exact h

/-- C8. After successful argument parsing the process always exits with
status 0: precheck failures, validation failures and exceptions reaching the
driver only print a diagnostic. No projection happens when protocol
validation fails or settings validation is falsy, and an exception escaping
the settings validator is caught and reported as a console line. -/
theorem c8_normal_exit :
    ∀ p s env,
    (main_run p s env).exitCode = 0 ∧
    ((validate_protocol_file env.protocolFile).1 = false →
      DriverAction.projectProtocol ∉ (main_run p s env).actions ∧
      DriverAction.projectSettings ∉ (main_run p s env).actions) ∧
    (∀ v, validate_settings_file env.settingsFile = Except.ok v → v.truthy = false →
      DriverAction.projectProtocol ∉ (main_run p s env).actions ∧
      DriverAction.projectSettings ∉ (main_run p s env).actions) ∧
    (p ≠ s → hasYamlExt p = true → hasYamlExt s = true →
      (validate_protocol_file env.protocolFile).1 = true →
      ∀ e, validate_settings_file env.settingsFile = Except.error e →
      errLine e ∈ (main_run p s env).console) := by
  intro p s env
  refine ⟨?_, ?_, ?_, ?_⟩
  · unfold main_run
    dsimp only
    repeat' split
    all_goals rfl
  · intro hpf
    unfold main_run
    dsimp only
    split
    · simp
    · split
      · simp
      · split
        · simp
        · simp only [hpf, Bool.false_eq_true, if_false]
          simp
  · intro v hv ht
    unfold main_run
    dsimp only
    split
    · simp
    · split
      · simp
      · split
        · simp
        · split
          · split
            · simp
            · rename_i v2 heq
              have hvv : v2 = v := by
                have h0 := hv.symm.trans heq
                injection h0 with h0
                exact h0.symm
              subst hvv
              simp only [ht, Bool.false_eq_true, if_false]
              simp
          · simp
  · intro h1 h2 h3 hpt e hv
    unfold main_run
    dsimp only
    rw [if_neg h1]
    simp only [h2, h3, Bool.not_true, Bool.false_eq_true, if_false, hpt, if_true, hv]
    simp

/-- C8 (witness). The theorem applied at a concrete run: valid paths, a
protocol document failing validation (missing keys), and a settings file
whose read raises; exit status is 0, nothing is projected, and the settings
exception appears on the console. -/
theorem c8_witness :
    (main_run "p.yaml" "s.yaml"
        ⟨Except.ok Yaml.null, Except.error (PyExc.yamlError "bad yaml")⟩).exitCode = 0 ∧
    DriverAction.projectProtocol ∉
      (main_run "p.yaml" "s.yaml"
        ⟨Except.ok Yaml.null, Except.error (PyExc.yamlError "bad yaml")⟩).actions := by
  refine ⟨(c8_normal_exit "p.yaml" "s.yaml" _).1, ?_⟩
  exact ((c8_normal_exit "p.yaml" "s.yaml"
    ⟨Except.ok Yaml.null, Except.error (PyExc.yamlError "bad yaml")⟩).2.1 rfl).1

theorem scan_transitions_append (s : Yaml) (l1 l2 : List Yaml) :
    scan_transitions s (l1 ++ l2) =
      Except.bind (scan_transitions s l1) (fun r1 =>
        Except.bind (scan_transitions s l2) (fun r2 =>
          Except.ok (r1.1 ++ r2.1, r1.2 ++ r2.2))) := by
  induction l1 with
  | nil =>
    rw [List.nil_append]
    cases h : scan_transitions s l2 with
    | ok r => simp [scan_transitions, ebind_ok, h]
    | error e => simp [scan_transitions, ebind_ok, h, ebind_err]
  | cons t ts ih =>
    cases t with
    | map tm =>
      rw [List.cons_append]
      simp only [scan_transitions, pyGetD, pbind_ok, ebind_ok]
      cases hpe : pyEq ((tm.lookup "from").getD Yaml.null) s with
      | false =>
        simp only [Bool.false_eq_true, if_false, ih]
      | true =>
        simp only [if_true, pbind_ok, ih]
        cases h1 : scan_transitions s ts with
        | error e => simp [ebind_err, pbind_err]
        | ok r1 =>
          cases h2 : scan_transitions s l2 with
          | error e => simp [ebind_ok, ebind_err, pbind_ok, pbind_err]
          | ok r2 => simp [ebind_ok, pbind_ok]
    | str s2 =>
      rw [List.cons_append]
      simp only [scan_transitions, pyGetD, pbind_err, ebind_err]
    | list l =>
      rw [List.cons_append]
      simp only [scan_transitions, pyGetD, pbind_err, ebind_err]
    | null =>
      rw [List.cons_append]
      simp only [scan_transitions, pyGetD, pbind_err, ebind_err]

/-- C10. A transition whose from matches the current state but which lacks
the event field contributes the literal string "N/A" at its own position of
the Event cell's entries (and its rendered edge at the same position of the
Transition entries) instead of failing: the projector's scan of
pre ++ [that transition] ++ post splits into the scans of pre and post with
"N/A" in between. -/
theorem c10_missing_event_renders_na :
    ∀ (s : Yaml) (pre post : List Yaml) (tm : List (String × Yaml)) infos evs,
    pyEq ((tm.lookup "from").getD Yaml.null) s = true →
    tm.lookup "event" = none →
    scan_transitions s (pre ++ Yaml.map tm :: post) = Except.ok (infos, evs) →
    ∃ i1 e1 i2 e2,
      scan_transitions s pre = Except.ok (i1, e1) ∧
      scan_transitions s post = Except.ok (i2, e2) ∧
      evs = e1 ++ Yaml.str "N/A" :: e2 ∧
      infos = i1 ++ ("(" ++ pyStr ((tm.lookup "from").getD Yaml.null) ++ " -> " ++
        pyStr ((tm.lookup "to").getD Yaml.null) ++ ")") :: i2 := by
  intro s pre post tm infos evs hmatch hev htotal
  have hcons : scan_transitions s (Yaml.map tm :: post) =
      Except.bind (scan_transitions s post) (fun rest =>
        Except.ok (("(" ++ pyStr ((tm.lookup "from").getD Yaml.null) ++ " -> " ++
          pyStr ((tm.lookup "to").getD Yaml.null) ++ ")") :: rest.1,
          Yaml.str "N/A" :: rest.2)) := by
    simp only [scan_transitions, pyGetD, pbind_ok, hmatch, if_true, hev, Option.getD_none]
    cases h : scan_transitions s post with
    | error e => simp [ebind_err, pbind_err]
    | ok r => simp [ebind_ok, pbind_ok]
  rw [scan_transitions_append, hcons] at htotal
  cases h1 : scan_transitions s pre with
  | error e =>
    rw [h1, ebind_err] at htotal
    exact absurd htotal (by simp)
  | ok r1 =>
    rw [h1, ebind_ok] at htotal
    cases h2 : scan_transitions s post with
    | error e =>
      rw [h2, ebind_err, ebind_err] at htotal
      exact absurd htotal (by simp)
    | ok r2 =>
      obtain ⟨i1, e1⟩ := r1
      obtain ⟨i2, e2⟩ := r2
      rw [h2, ebind_ok, ebind_ok] at htotal
      injection htotal with h
      injection h with hinfos hevs
      exact ⟨i1, e1, i2, e2, rfl, rfl, hevs.symm, hinfos.symm⟩

/-- C10 (witness). The theorem applied at state A with the single transition
(from A, no event): the Event entries are exactly ["N/A"]. -/
theorem c10_witness :
    ∃ i1 e1 i2 e2,
      scan_transitions (Yaml.str "A") [] = Except.ok (i1, e1) ∧
      scan_transitions (Yaml.str "A") [] = Except.ok (i2, e2) ∧
      [Yaml.str "N/A"] = e1 ++ Yaml.str "N/A" :: e2 ∧
      ["(A -> None)"] = i1 ++ ("(" ++ pyStr (([("from", Yaml.str "A")].lookup "from").getD Yaml.null) ++ " -> " ++
        pyStr (([("from", Yaml.str "A")].lookup "to").getD Yaml.null) ++ ")") :: i2 :=
  c10_missing_event_renders_na (Yaml.str "A") [] [] [("from", Yaml.str "A")]
    ["(A -> None)"] [Yaml.str "N/A"] rfl rfl rfl

/-- C9 (witness). The amended theorem applied at a document whose first
transition lacks the from field: check 5 evaluates it at the first state and
the KeyError becomes the generic file-reading diagnostic. -/
theorem c9_amended_witness :
    validate_protocol_file (Except.ok (Yaml.map
      [("protocol_name", Yaml.str "P"),
       ("states", Yaml.list [Yaml.str "A"]),
       ("transitions", Yaml.list [Yaml.map [("to", Yaml.str "A")]])])) =
      (false, some "Error reading protocol file: 'from'") :=
  c9_amended_keyerror_only_when_scanned.1 _ [Yaml.str "A"] [("to", Yaml.str "A")] []
    rfl rfl rfl rfl (by simp) rfl rfl rfl

/-- C3. The Protocol Validator performs its six checks in the stated order
with short-circuit on the first failure: each conjunct fixes only the checks
up to the failing one and leaves everything after it arbitrary, so a failure
at check k yields exactly check k's diagnostic whatever the later content.
The three required keys are probed in order; then states must be a non-empty
list; then transitions; then the set-cardinality duplicate test; then the
no-outgoing-transition check, which collects the full ordered set of
offending states into one message; only when all of these pass does the
outcome come from the per-transition check 6 (whose own raises fall to the
generic read-error handler). -/
theorem c3_checks_in_order :
    (∀ c, pyContains c "protocol_name" = Except.ok false →
      validate_protocol_file (Except.ok c) = (false, some "Error: Missing key: protocol_name")) ∧
    (∀ c, pyContains c "protocol_name" = Except.ok true →
      pyContains c "states" = Except.ok false →
      validate_protocol_file (Except.ok c) = (false, some "Error: Missing key: states")) ∧
    (∀ c, pyContains c "protocol_name" = Except.ok true →
      pyContains c "states" = Except.ok true →
      pyContains c "transitions" = Except.ok false →
      validate_protocol_file (Except.ok c) = (false, some "Error: Missing key: transitions")) ∧
    (∀ c st, pyContains c "protocol_name" = Except.ok true →
      pyContains c "states" = Except.ok true →
      pyContains c "transitions" = Except.ok true →
      pyGetItem c "states" = Except.ok st → isNonemptyList st = false →
      validate_protocol_file (Except.ok c) = (false, some "Error: States should be a non-empty list")) ∧
    (∀ c ss tr, pyContains c "protocol_name" = Except.ok true →
      pyContains c "states" = Except.ok true →
      pyContains c "transitions" = Except.ok true →
      pyGetItem c "states" = Except.ok (Yaml.list ss) → ss ≠ [] →
      pyGetItem c "transitions" = Except.ok tr → isNonemptyList tr = false →
      validate_protocol_file (Except.ok c) = (false, some "Error: Transitions should be a non-empty list")) ∧
    (∀ c ss ts n, pyContains c "protocol_name" = Except.ok true →
      pyContains c "states" = Except.ok true →
      pyContains c "transitions" = Except.ok true →
      pyGetItem c "states" = Except.ok (Yaml.list ss) → ss ≠ [] →
      pyGetItem c "transitions" = Except.ok (Yaml.list ts) → ts ≠ [] →
      pySetCount [] ss = Except.ok n → ss.length ≠ n →
      validate_protocol_file (Except.ok c) = (false, some "Error: Duplicate states found")) ∧
    (∀ c ss ts off joined, pyContains c "protocol_name" = Except.ok true →
      pyContains c "states" = Except.ok true →
      pyContains c "transitions" = Except.ok true →
      pyGetItem c "states" = Except.ok (Yaml.list ss) → ss ≠ [] →
      pyGetItem c "transitions" = Except.ok (Yaml.list ts) → ts ≠ [] →
      pySetCount [] ss = Except.ok ss.length →
      noTransStates ts ss = Except.ok off → off ≠ [] →
      pyJoinStrs ", " off = Except.ok joined →
      validate_protocol_file (Except.ok c) =
        (false, some ("Error: States with no transitions: " ++ joined))) ∧
    (∀ c ss ts, pyContains c "protocol_name" = Except.ok true →
      pyContains c "states" = Except.ok true →
      pyContains c "transitions" = Except.ok true →
      pyGetItem c "states" = Except.ok (Yaml.list ss) → ss ≠ [] →
      pyGetItem c "transitions" = Except.ok (Yaml.list ts) → ts ≠ [] →
      pySetCount [] ss = Except.ok ss.length →
      noTransStates ts ss = Except.ok [] →
      validate_protocol_file (Except.ok c) =
        (match check_transitions ss ts with
         | Except.ok v => v
         | Except.error e => (false, some ("Error reading protocol file: " ++ pyExcStr e)))) := by
  refine ⟨?_, ?_, ?_, ?_, ?_, ?_, ?_, ?_⟩
  · intro c h1
    have hpc : protocol_checks c = Except.ok (false, some "Error: Missing key: protocol_name") := by
      simp only [protocol_checks, findMissingKey, requiredKeys, h1, pbind_ok,
        Bool.false_eq_true, if_false]
      rfl
    unfold validate_protocol_file
    rw [ebind_ok, hpc]
  · intro c h1 h2
    have hpc : protocol_checks c = Except.ok (false, some "Error: Missing key: states") := by
      simp only [protocol_checks, findMissingKey, requiredKeys, h1, h2, pbind_ok,
        Bool.false_eq_true, if_false, if_true]
      rfl
    unfold validate_protocol_file
    rw [ebind_ok, hpc]
  · intro c h1 h2 h3
    have hpc : protocol_checks c = Except.ok (false, some "Error: Missing key: transitions") := by
      simp only [protocol_checks, findMissingKey, requiredKeys, h1, h2, h3, pbind_ok,
        Bool.false_eq_true, if_false, if_true]
      rfl
    unfold validate_protocol_file
    rw [ebind_ok, hpc]
  · intro c st h1 h2 h3 h4 h5
    have hfm : findMissingKey c requiredKeys = Except.ok none := by
      simp only [findMissingKey, requiredKeys, h1, h2, h3, pbind_ok, if_true]
    have hpc : protocol_checks c = Except.ok (false, some "Error: States should be a non-empty list") := by
      simp only [protocol_checks, hfm, pbind_ok, h4]
      cases st with
      | list l =>
        cases l with
        | nil => simp
        | cons a as => simp [isNonemptyList] at h5
      | str s => rfl
      | map m => rfl
      | null => rfl
    unfold validate_protocol_file
    rw [ebind_ok, hpc]
  · intro c ss tr h1 h2 h3 h4 h5 h6 h7
    have hfm : findMissingKey c requiredKeys = Except.ok none := by
      simp only [findMissingKey, requiredKeys, h1, h2, h3, pbind_ok, if_true]
    obtain ⟨s0, rest, rfl⟩ : ∃ s0 rest, ss = s0 :: rest := by
      cases ss with
      | nil => exact absurd rfl h5
      | cons a as => exact ⟨a, as, rfl⟩
    have hpc : protocol_checks c = Except.ok (false, some "Error: Transitions should be a non-empty list") := by
      simp only [protocol_checks, hfm, pbind_ok, h4, h6, List.isEmpty_cons, Bool.false_eq_true,
        if_false]
      cases tr with
      | list l =>
        cases l with
        | nil => simp
        | cons a as => simp [isNonemptyList] at h7
      | str s => rfl
      | map m => rfl
      | null => rfl
    unfold validate_protocol_file
    rw [ebind_ok, hpc]
  · intro c ss ts n h1 h2 h3 h4 h5 h6 h7 h8 h9
    have hfm : findMissingKey c requiredKeys = Except.ok none := by
      simp only [findMissingKey, requiredKeys, h1, h2, h3, pbind_ok, if_true]
    obtain ⟨s0, rest, rfl⟩ : ∃ s0 rest, ss = s0 :: rest := by
      cases ss with
      | nil => exact absurd rfl h5
      | cons a as => exact ⟨a, as, rfl⟩
    obtain ⟨t0, trest, rfl⟩ : ∃ t0 trest, ts = t0 :: trest := by
      cases ts with
      | nil => exact absurd rfl h7
      | cons a as => exact ⟨a, as, rfl⟩
    have hpc : protocol_checks c = Except.ok (false, some "Error: Duplicate states found") := by
      simp only [protocol_checks, hfm, pbind_ok, h4, h6, h8, List.isEmpty_cons, Bool.false_eq_true,
        if_false]
      rw [if_pos h9]
    unfold validate_protocol_file
    rw [ebind_ok, hpc]
  · intro c ss ts off joined h1 h2 h3 h4 h5 h6 h7 h8 h9 h10 h11
    have hfm : findMissingKey c requiredKeys = Except.ok none := by
      simp only [findMissingKey, requiredKeys, h1, h2, h3, pbind_ok, if_true]
    obtain ⟨s0, rest, rfl⟩ : ∃ s0 rest, ss = s0 :: rest := by
      cases ss with
      | nil => exact absurd rfl h5
      | cons a as => exact ⟨a, as, rfl⟩
    obtain ⟨t0, trest, rfl⟩ : ∃ t0 trest, ts = t0 :: trest := by
      cases ts with
      | nil => exact absurd rfl h7
      | cons a as => exact ⟨a, as, rfl⟩
    obtain ⟨o0, orest, rfl⟩ : ∃ o0 orest, off = o0 :: orest := by
      cases off with
      | nil => exact absurd rfl h10
      | cons a as => exact ⟨a, as, rfl⟩
    have hpc : protocol_checks c =
        Except.ok (false, some ("Error: States with no transitions: " ++ joined)) := by
      simp only [protocol_checks, hfm, pbind_ok, h4, h6, h8, h9, h11, List.isEmpty_cons,
        Bool.false_eq_true, if_false, Bool.not_false, if_true]
      rw [if_neg (fun hh => hh rfl)]
    unfold validate_protocol_file
    rw [ebind_ok, hpc]
  · intro c ss ts h1 h2 h3 h4 h5 h6 h7 h8 h9
    have hfm : findMissingKey c requiredKeys = Except.ok none := by
      simp only [findMissingKey, requiredKeys, h1, h2, h3, pbind_ok, if_true]
    obtain ⟨s0, rest, rfl⟩ : ∃ s0 rest, ss = s0 :: rest := by
      cases ss with
      | nil => exact absurd rfl h5
      | cons a as => exact ⟨a, as, rfl⟩
    obtain ⟨t0, trest, rfl⟩ : ∃ t0 trest, ts = t0 :: trest := by
      cases ts with
      | nil => exact absurd rfl h7
      | cons a as => exact ⟨a, as, rfl⟩
    have hpc : protocol_checks c = check_transitions (s0 :: rest) (t0 :: trest) := by
      simp only [protocol_checks, hfm, pbind_ok, h4, h6, h8, h9, List.isEmpty_cons,
        Bool.false_eq_true, if_false]
      rw [if_neg (fun hh => hh rfl)]
      simp only [h9, pbind_ok, List.isEmpty_nil, Bool.not_true, Bool.false_eq_true, if_false]
    unfold validate_protocol_file
    rw [ebind_ok, hpc]

/-- C3 (witness). The ordering theorem applied at a document missing
protocol_name, and at a document whose states A and B both lack outgoing
transitions: the one diagnostic lists both offenders in order. -/
theorem c3_witness :
    validate_protocol_file (Except.ok (Yaml.map
      [("states", Yaml.list [Yaml.str "A"]), ("transitions", Yaml.list [])])) =
      (false, some "Error: Missing key: protocol_name") ∧
    validate_protocol_file (Except.ok (Yaml.map
      [("protocol_name", Yaml.str "P"),
       ("states", Yaml.list [Yaml.str "A", Yaml.str "B", Yaml.str "C"]),
       ("transitions", Yaml.list
         [Yaml.map [("from", Yaml.str "C"), ("to", Yaml.str "C"), ("event", Yaml.str "e")]])])) =
      (false, some "Error: States with no transitions: A, B") :=
  ⟨c3_checks_in_order.1 _ rfl,
    c3_checks_in_order.2.2.2.2.2.2.1 _
      [Yaml.str "A", Yaml.str "B", Yaml.str "C"]
      [Yaml.map [("from", Yaml.str "C"), ("to", Yaml.str "C"), ("event", Yaml.str "e")]]
      [Yaml.str "A", Yaml.str "B"] "A, B"
      rfl rfl rfl rfl (by simp) rfl (by simp) rfl rfl (by simp) rfl⟩

theorem check_transitions_ok_all (sl : List Yaml) (ts : List Yaml) (o : Option String)
    (h : check_transitions sl ts = Except.ok (true, o)) :
    ∀ t ∈ ts, ∃ tm, t = Yaml.map tm ∧ ∃ ev, tm.lookup "event" = some (Yaml.str ev) := by
  induction ts with
  | nil => intro t ht; exact absurd ht (List.not_mem_nil t)
  | cons t rest ih =>
    rw [check_transitions] at h
    cases hb : allKeysIn t transitionKeys with
    | error e => rw [hb, pbind_err] at h; exact absurd h (by simp)
    | ok b =>
      rw [hb, pbind_ok] at h
      cases b with
      | false => simp at h
      | true =>
        simp only [Bool.not_true, Bool.false_eq_true, if_false] at h
        cases hf : pyGetItem t "from" with
        | error e => rw [hf, pbind_err] at h; exact absurd h (by simp)
        | ok f =>
          rw [hf, pbind_ok] at h
          cases hm : pyMemSet f sl with
          | error e => rw [hm, pbind_err] at h; exact absurd h (by simp)
          | ok fIn =>
            rw [hm, pbind_ok] at h
            cases fIn with
            | false => simp at h
            | true =>
              simp only [Bool.not_true, Bool.false_eq_true, if_false] at h
              cases hto : pyGetItem t "to" with
              | error e => rw [hto, pbind_err] at h; exact absurd h (by simp)
              | ok tto =>
                rw [hto, pbind_ok] at h
                cases hmt : pyMemSet tto sl with
                | error e => rw [hmt, pbind_err] at h; exact absurd h (by simp)
                | ok tIn =>
                  rw [hmt, pbind_ok] at h
                  cases tIn with
                  | false => simp at h
                  | true =>
                    simp only [Bool.not_true, Bool.false_eq_true, if_false] at h
                    cases hev : pyGetItem t "event" with
                    | error e => rw [hev, pbind_err] at h; exact absurd h (by simp)
                    | ok ev =>
                      rw [hev, pbind_ok] at h
                      cases ev with
                      | str es =>
                        dsimp only at h
                        cases hemp : es.isEmpty with
                        | true => rw [hemp] at h; simp at h
                        | false =>
                          rw [hemp] at h
                          simp only [Bool.false_eq_true, if_false] at h
                          obtain ⟨tm, rfl⟩ : ∃ tm, t = Yaml.map tm := by
                            cases t with
                            | map tm => exact ⟨tm, rfl⟩
                            | str s2 => exact absurd hf (by simp [pyGetItem])
                            | list l => exact absurd hf (by simp [pyGetItem])
                            | null => exact absurd hf (by simp [pyGetItem])
                          have hl : tm.lookup "event" = some (Yaml.str es) := by
                            cases hlk : tm.lookup "event" with
                            | none => rw [pyGetItem, hlk] at hev; exact absurd hev (by simp)
                            | some v =>
                              rw [pyGetItem, hlk] at hev
                              injection hev with hv
                              rw [hv]
                          intro t2 ht2
                          rcases List.mem_cons.mp ht2 with h2 | h2
                          · subst h2
                            exact ⟨tm, rfl, es, hl⟩
                          · exact ih h t2 h2
                      | list l => simp at h
                      | map m2 => simp at h
                      | null => simp at h

theorem scan_ok_of_wellformed (s : Yaml) (ts : List Yaml)
    (h : ∀ t ∈ ts, ∃ tm, t = Yaml.map tm ∧ ∃ ev, tm.lookup "event" = some (Yaml.str ev)) :
    ∃ infos evs, scan_transitions s ts = Except.ok (infos, evs) ∧
      ∀ y ∈ evs, ∃ e, y = Yaml.str e := by
  induction ts with
  | nil => exact ⟨[], [], rfl, by simp⟩
  | cons t rest ih =>
    obtain ⟨tm, rfl, ev, hev⟩ := h t (List.mem_cons_self _ _)
    obtain ⟨infos, evs, hscan, hstr⟩ := ih (fun t2 h2 => h t2 (List.mem_cons_of_mem _ h2))
    cases hpe : pyEq ((tm.lookup "from").getD Yaml.null) s with
    | false =>
      refine ⟨infos, evs, ?_, hstr⟩
      simp only [scan_transitions, pyGetD, pbind_ok, hpe, Bool.false_eq_true, if_false, hscan]
    | true =>
      refine ⟨("(" ++ pyStr ((tm.lookup "from").getD Yaml.null) ++ " -> " ++
        pyStr ((tm.lookup "to").getD Yaml.null) ++ ")") :: infos, Yaml.str ev :: evs, ?_, ?_⟩
      · simp only [scan_transitions, pyGetD, pbind_ok, hpe, if_true, hscan, hev,
          Option.getD_some]
      · intro y hy
        rcases List.mem_cons.mp hy with h2 | h2
        · exact ⟨ev, h2⟩
        · exact hstr y h2

theorem pyStrList_ok_of_all_str (l : List Yaml)
    (h : ∀ y ∈ l, ∃ e, y = Yaml.str e) :
    ∃ strs, pyStrList l = Except.ok strs := by
  induction l with
  | nil => exact ⟨[], rfl⟩
  | cons y rest ih =>
    obtain ⟨e, rfl⟩ := h y (List.mem_cons_self _ _)
    obtain ⟨strs, hs⟩ := ih (fun y2 h2 => h y2 (List.mem_cons_of_mem _ h2))
    exact ⟨e :: strs, by simp only [pyStrList, hs, pbind_ok]⟩

theorem protocol_row_ok (s : Yaml) (ts : List Yaml)
    (h : ∀ t ∈ ts, ∃ tm, t = Yaml.map tm ∧ ∃ ev, tm.lookup "event" = some (Yaml.str ev)) :
    ∃ row, protocol_row (Yaml.list ts) s = Except.ok row := by
  obtain ⟨infos, evs, hscan, hstr⟩ := scan_ok_of_wellformed s ts h
  obtain ⟨strs, hj⟩ := pyStrList_ok_of_all_str evs hstr
  cases hinf : infos.isEmpty with
  | true =>
    refine ⟨[pyStr s, "No transitions", "No event"], ?_⟩
    simp only [protocol_row, pyIter, pbind_ok, hscan, hinf, Bool.not_true, Bool.false_eq_true,
      if_false]
  | false =>
    refine ⟨[pyStr s, String.intercalate " | " strs, String.intercalate " | " infos], ?_⟩
    simp only [protocol_row, pyIter, pbind_ok, hscan, hinf, Bool.not_false, if_true,
      pyJoinStrs, hj, pbind_ok]

theorem protocol_rows_go_ok (ss ts : List Yaml)
    (h : ∀ t ∈ ts, ∃ tm, t = Yaml.map tm ∧ ∃ ev, tm.lookup "event" = some (Yaml.str ev)) :
    ∃ rows, protocol_rows_go (Yaml.list ts) ss = Except.ok rows := by
  induction ss with
  | nil => exact ⟨[], rfl⟩
  | cons s rest ih =>
    obtain ⟨row, hrow⟩ := protocol_row_ok s ts h
    obtain ⟨rows, hrows⟩ := ih
    exact ⟨row :: rows, by simp only [protocol_rows_go, hrow, hrows, pbind_ok]⟩

theorem validated_protocol_read_ok (c : Yaml) (o : Option String)
    (h : protocol_checks c = Except.ok (true, o)) :
    ∃ rows, protocol_read_run (Except.ok c) = Except.ok rows := by
  rw [protocol_checks] at h
  cases hfm : findMissingKey c requiredKeys with
  | error e => rw [hfm, pbind_err] at h; exact absurd h (by simp)
  | ok r =>
    rw [hfm, pbind_ok] at h
    cases r with
    | some k => simp at h
    | none =>
      dsimp only at h
      cases hst : pyGetItem c "states" with
      | error e => rw [hst, pbind_err] at h; exact absurd h (by simp)
      | ok st =>
        rw [hst, pbind_ok] at h
        cases st with
        | str s2 => simp at h
        | null => simp at h
        | map m2 => simp at h
        | list ss =>
          dsimp only at h
          cases hemp : ss.isEmpty with
          | true => rw [hemp] at h; simp at h
          | false =>
            rw [hemp] at h
            simp only [Bool.false_eq_true, if_false] at h
            cases htr : pyGetItem c "transitions" with
            | error e => rw [htr, pbind_err] at h; exact absurd h (by simp)
            | ok tr =>
              rw [htr, pbind_ok] at h
              cases tr with
              | str s2 => simp at h
              | null => simp at h
              | map m2 => simp at h
              | list ts =>
                dsimp only at h
                cases hte : ts.isEmpty with
                | true => rw [hte] at h; simp at h
                | false =>
                  rw [hte] at h
                  simp only [Bool.false_eq_true, if_false] at h
                  cases hsc : pySetCount [] ss with
                  | error e => rw [hsc, pbind_err] at h; exact absurd h (by simp)
                  | ok n =>
                    rw [hsc, pbind_ok] at h
                    by_cases hdup : ss.length ≠ n
                    · rw [if_pos hdup] at h; simp at h
                    · rw [if_neg hdup] at h
                      rw [pbind_ok] at h
                      cases hoff : noTransStates ts ss with
                      | error e => rw [hoff, pbind_err] at h; exact absurd h (by simp)
                      | ok off =>
                        rw [hoff, pbind_ok] at h
                        cases off with
                        | cons o0 orest =>
                          simp only [List.isEmpty_cons, Bool.not_false, if_true] at h
                          cases hj : pyJoinStrs ", " (o0 :: orest) with
                          | error e => rw [hj, pbind_err] at h; exact absurd h (by simp)
                          | ok j => rw [hj, pbind_ok] at h; simp at h
                        | nil =>
                          simp only [List.isEmpty_nil, Bool.not_true, Bool.false_eq_true,
                            if_false] at h
                          have hwf := check_transitions_ok_all ss ts o h
                          obtain ⟨m, rfl⟩ : ∃ m, c = Yaml.map m := by
                            cases c with
                            | map m => exact ⟨m, rfl⟩
                            | str s2 => exact absurd hst (by simp [pyGetItem])
                            | list l => exact absurd hst (by simp [pyGetItem])
                            | null => exact absurd hst (by simp [pyGetItem])
                          have hls : m.lookup "states" = some (Yaml.list ss) := by
                            cases hlk : m.lookup "states" with
                            | none => rw [pyGetItem, hlk] at hst; exact absurd hst (by simp)
                            | some v =>
                              rw [pyGetItem, hlk] at hst
                              injection hst with hv
                              rw [hv]
                          have hlt : m.lookup "transitions" = some (Yaml.list ts) := by
                            cases hlk : m.lookup "transitions" with
                            | none => rw [pyGetItem, hlk] at htr; exact absurd htr (by simp)
                            | some v =>
                              rw [pyGetItem, hlk] at htr
                              injection htr with hv
                              rw [hv]
                          obtain ⟨rows, hrows⟩ := protocol_rows_go_ok ss ts hwf
                          refine ⟨rows, ?_⟩
                          simp only [protocol_read_run, pbind_ok, pyGetD, hls, hlt,
                            Option.getD_some, pyIter, hrows]

theorem validate_true_elim (r : Except PyExc Yaml)
    (h : (validate_protocol_file r).1 = true) :
    ∃ c o, r = Except.ok c ∧ protocol_checks c = Except.ok (true, o) := by
  cases r with
  | error e => simp [validate_protocol_file, ebind_err] at h
  | ok c =>
    unfold validate_protocol_file at h
    rw [ebind_ok] at h
    cases hp : protocol_checks c with
    | error e => rw [hp] at h; simp at h
    | ok v =>
      rw [hp] at h
      obtain ⟨b, o⟩ := v
      dsimp only at h
      subst h
      exact ⟨c, o, rfl, hp⟩

/-- C4. With the precheck passed, the driver runs the Protocol Validator
first and short-circuits: when it fails, the Settings Validator is never
invoked; when both validators succeed (settings verdict truthy), the run is
exactly protocol validation, settings validation, protocol projection,
settings projection, in that order - the Settings Projector is always
reached because a protocol document that passed validation cannot make the
Protocol Projector raise. A falsy or raising settings validation stops after
the two validations. -/
theorem c4_driver_sequencing :
    ∀ p s env, p ≠ s → hasYamlExt p = true → hasYamlExt s = true →
    ((validate_protocol_file env.protocolFile).1 = false →
      (main_run p s env).actions = [DriverAction.validateProtocol]) ∧
    (∀ v, (validate_protocol_file env.protocolFile).1 = true →
      validate_settings_file env.settingsFile = Except.ok v → v.truthy = true →
      (main_run p s env).actions =
        [DriverAction.validateProtocol, DriverAction.validateSettings,
         DriverAction.projectProtocol, DriverAction.projectSettings]) ∧
    (∀ v, (validate_protocol_file env.protocolFile).1 = true →
      validate_settings_file env.settingsFile = Except.ok v → v.truthy = false →
      (main_run p s env).actions = [DriverAction.validateProtocol, DriverAction.validateSettings]) ∧
    (∀ e, (validate_protocol_file env.protocolFile).1 = true →
      validate_settings_file env.settingsFile = Except.error e →
      (main_run p s env).actions = [DriverAction.validateProtocol, DriverAction.validateSettings]) := by
  intro p s env h1 h2 h3
  refine ⟨?_, ?_, ?_, ?_⟩
  · intro hpf
    unfold main_run
    dsimp only
    rw [if_neg h1]
    simp only [h2, h3, Bool.not_true, Bool.false_eq_true, if_false, hpf]
  · intro v hpt hv htv
    obtain ⟨c, o, hr, hpc⟩ := validate_true_elim _ hpt
    obtain ⟨rows, hrows⟩ := validated_protocol_read_ok c o hpc
    unfold main_run
    dsimp only
    rw [if_neg h1]
    simp only [h2, h3, Bool.not_true, Bool.false_eq_true, if_false, hpt, if_true, hv]
    simp only [htv, if_true, hr, hrows]
    split <;> rfl
  · intro v hpt hv htv
    unfold main_run
    dsimp only
    rw [if_neg h1]
    simp only [h2, h3, Bool.not_true, Bool.false_eq_true, if_false, hpt, if_true, hv]
    simp only [htv, Bool.false_eq_true, if_false]
  · intro e hpt hv
    unfold main_run
    dsimp only
    rw [if_neg h1]
    simp only [h2, h3, Bool.not_true, Bool.false_eq_true, if_false, hpt, if_true, hv]


/-- C4 (witness). The sequencing theorem applied at a fully valid pair of
documents: the action trace is the full four-step sequence. -/
theorem c4_witness :
    (main_run "p.yaml" "s.yaml" ⟨Except.ok c4proto, Except.ok c4settings⟩).actions =
      [DriverAction.validateProtocol, DriverAction.validateSettings,
       DriverAction.projectProtocol, DriverAction.projectSettings] :=
  (c4_driver_sequencing "p.yaml" "s.yaml" ⟨Except.ok c4proto, Except.ok c4settings⟩
      (by decide) (by decide) (by decide)).2.1
    (SettingsVerdict.valid "Settings file is valid.") rfl rfl rfl
